import Mathlib

/-!
Verification of the notebook-output extraction routine
(`process_notebook_content` in `dashboard.py`).

The extractor walks the cells of a parsed notebook document in order; for
each code cell with recorded outputs it emits zero or more HTML fragments:
`display_data` outputs yield the `text/html` payload verbatim, else an
`<img>` element built from the `image/png` base64 payload; `execute_result`
outputs yield the `text/plain` payload wrapped in `<pre>` tags; everything
else is skipped silently.
-/

/-- One recorded result of executing a code cell.  `data` is the optional
MIME-type → payload mapping (`"data" in output` in the source corresponds to
`data = some _`); the mapping itself is an association list with unique keys,
looked up with `List.lookup` (the source's `"k" in output.data` /
`output.data["k"]`). -/
structure Output where
  output_type : String
  data : Option (List (String × String))
deriving DecidableEq, Repr

/-- One unit of a notebook document.  `outputs = none` models a cell without
an `outputs` field; the source reads it as `cell.get("outputs", [])`. -/
structure Cell where
  cell_type : String
  outputs : Option (List Output)
deriving DecidableEq, Repr

/-- The parsed in-memory notebook: an ordered sequence of cells. -/
structure Notebook where
  cells : List Cell
deriving DecidableEq, Repr

/-- The source's `cell.get("outputs", [])`: the output sequence, defaulting to
empty when the field is absent. -/
def cellOutputs (c : Cell) : List Output :=
  c.outputs.getD []

/-- The source's compound membership test `"data" in output and k in
output.data`, returning the payload when both hold:  `some v` iff the output
has a `data` mapping containing key `k` with value `v`. -/
def hasMime (o : Output) (k : String) : Option String :=
  match o.data with
  | some d => d.lookup k
  | none => none

/-- Fragments contributed by a single output, translating the
`if output.output_type == "display_data": ... elif ... == "execute_result":
...` branch of the source.  Each branch appends at most one string to the
accumulator, so it is rendered here as a list of length at most one. -/
def processOutput (o : Output) : List String :=
  if o.output_type = "display_data" then
    match hasMime o "text/html" with
    | some html => [html]
    | none =>
      match hasMime o "image/png" with
      | some png => ["<img src=\"data:image/png;base64," ++ png ++ "\" />\n"]
      | none => []
  else if o.output_type = "execute_result" then
    match hasMime o "text/plain" with
    | some t => ["<pre>" ++ t ++ "</pre>"]
    | none => []
  else []

/-- Fragments contributed by a single cell: the source's guard
`if cell.cell_type == "code" and cell.get("outputs", [])` (the second
conjunct is Python truthiness of the list, i.e. non-emptiness) followed by
the inner `for output in cell.outputs` loop appending fragments in order. -/
def cellFragments (c : Cell) : List String :=
  if c.cell_type = "code" ∧ cellOutputs c ≠ [] then
    (cellOutputs c).flatMap processOutput
  else []

/-- The core extraction routine on a parsed notebook: the source's outer
`for cell in notebook.cells` loop, appending each cell's fragments to the
accumulator in document order. -/
def process_notebook_content (nb : Notebook) : List String :=
  nb.cells.flatMap cellFragments

/-- The two failure kinds of the end-to-end call: the file read raising
`IOError`, and `nbformat.reads` raising a parse error. -/
inductive ExtractError where
  | ioError
  | parseError
deriving DecidableEq, Repr

/-- The end-to-end extraction call.  File reading and the third-party
notebook parser are outside the repository, so they enter as parameters:
`readResult` is `none` when the path is missing or unreadable (the source's
`open` raising `IOError`), and `parse` returns `none` on text that does not
conform to the notebook format (the source's `nbformat.reads` raising a
parse error).  On success the parsed notebook is processed by
`process_notebook_content`. -/
def extract (readResult : Option String) (parse : String → Option Notebook) :
    Except ExtractError (List String) :=
  match readResult with
  | none => Except.error ExtractError.ioError
  | some text =>
    match parse text with
    | none => Except.error ExtractError.parseError
    | some nb => Except.ok (process_notebook_content nb)

/-- C1: a `display_data` Output emits at most one Fragment; if its `data`
mapping contains `text/html` the Fragment is that HTML string verbatim (even
when `image/png` is also present — the `text/html` branch is checked first);
if the mapping contains neither `text/html` nor `image/png`, or the `data`
mapping is absent, zero Fragments are emitted. -/
theorem C1_display_data_precedence (o : Output)
    (hty : o.output_type = "display_data") :
    (processOutput o).length ≤ 1 ∧
    (∀ d h, o.data = some d → d.lookup "text/html" = some h →
      processOutput o = [h]) ∧
    (∀ d, o.data = some d → d.lookup "text/html" = none →
      d.lookup "image/png" = none → processOutput o = []) ∧
    (o.data = none → processOutput o = []) := by
  refine ⟨?_, ?_, ?_, ?_⟩
  · simp only [processOutput, hasMime, hty, if_pos rfl]
    cases hd : o.data with
    | none => simp
    | some d =>
      cases hh : d.lookup "text/html" with
      | some h => simp [hh]
      | none =>
        cases hp : d.lookup "image/png" with
        | some p => simp [hh, hp]
        | none => simp [hh, hp]
  · intro d h hd hh
    simp [processOutput, hasMime, hty, hd, hh]
  · intro d hd hh hp
    simp [processOutput, hasMime, hty, hd, hh, hp]
  · intro hd
    simp [processOutput, hasMime, hty, hd]

/-- Witness for C1 at a concrete `display_data` Output carrying both
`text/html` and `image/png`: exactly the HTML string is emitted. -/
theorem C1_witness :
    processOutput ⟨"display_data",
      some [("text/html", "<b>hi</b>"), ("image/png", "QUJD")]⟩
      = ["<b>hi</b>"] := by
  have h := C1_display_data_precedence
    ⟨"display_data", some [("text/html", "<b>hi</b>"), ("image/png", "QUJD")]⟩
    rfl
  exact h.2.1 [("text/html", "<b>hi</b>"), ("image/png", "QUJD")]
    "<b>hi</b>" rfl rfl

/-- C2: an `execute_result` Output whose `data` mapping contains `text/plain`
with payload t emits exactly one Fragment, the text wrapped in a preformatted
HTML block; if `text/plain` is absent (or the whole `data` mapping is
absent), nothing is emitted for that Output. -/
theorem C2_execute_result_pre (o : Output)
    (hty : o.output_type = "execute_result") :
    (∀ d t, o.data = some d → d.lookup "text/plain" = some t →
      processOutput o = ["<pre>" ++ t ++ "</pre>"]) ∧
    (∀ d, o.data = some d → d.lookup "text/plain" = none →
      processOutput o = []) ∧
    (o.data = none → processOutput o = []) := by
  refine ⟨?_, ?_, ?_⟩
  · intro d t hd ht
    simp [processOutput, hasMime, hty, hd, ht]
  · intro d hd ht
    simp [processOutput, hasMime, hty, hd, ht]
  · intro hd
    simp [processOutput, hasMime, hty, hd]

/-- Witness for C2: payload "42" yields exactly the Fragment "<pre>42</pre>". -/
theorem C2_witness :
    processOutput ⟨"execute_result", some [("text/plain", "42")]⟩
      = ["<pre>42</pre>"] := by
  have h := (C2_execute_result_pre
    ⟨"execute_result", some [("text/plain", "42")]⟩ rfl).1
    [("text/plain", "42")] "42" rfl rfl
  simpa using h

/-- C3: a `display_data` Output whose `data` mapping lacks `text/html` but
contains `image/png` with base64 payload p emits exactly one Fragment, the
payload wrapped into an HTML image element; and the concrete scenario from
the spec: a document with one code cell containing one such Output with
payload "QUJD" yields exactly the stated one-element sequence. -/
theorem C3_display_data_png (o : Output)
    (hty : o.output_type = "display_data") :
    (∀ d p, o.data = some d → d.lookup "text/html" = none →
      d.lookup "image/png" = some p →
      processOutput o = ["<img src=\"data:image/png;base64," ++ p ++ "\" />\n"]) ∧
    process_notebook_content
      ⟨[⟨"code", some [⟨"display_data", some [("image/png", "QUJD")]⟩]⟩]⟩
      = ["<img src=\"data:image/png;base64,QUJD\" />\n"] := by
  refine ⟨?_, rfl⟩
  intro d p hd hh hp
  simp [processOutput, hasMime, hty, hd, hh, hp]

/-- Witness for C3 at the spec's concrete scenario payload "QUJD". -/
theorem C3_witness :
    processOutput ⟨"display_data", some [("image/png", "QUJD")]⟩
      = ["<img src=\"data:image/png;base64,QUJD\" />\n"] := by
  have h := (C3_display_data_png
    ⟨"display_data", some [("image/png", "QUJD")]⟩ rfl).1
    [("image/png", "QUJD")] "QUJD" rfl rfl rfl
  simpa using h

/-- C4: a missing or unreadable path fails with IOError; document text the
parser rejects fails with ParseError; and in either error case no fragment
sequence — not even a partial one — is returned to the caller. -/
theorem C4_errors (readResult : Option String)
    (parse : String → Option Notebook) :
    (readResult = none →
      extract readResult parse = Except.error ExtractError.ioError) ∧
    (∀ text, readResult = some text → parse text = none →
      extract readResult parse = Except.error ExtractError.parseError) ∧
    (∀ e fragments, extract readResult parse = Except.error e →
      extract readResult parse ≠ Except.ok fragments) := by
  refine ⟨?_, ?_, ?_⟩
  · intro h
    simp [extract, h]
  · intro text hr hp
    simp [extract, hr, hp]
  · intro e fragments he hok
    rw [he] at hok
    exact Except.noConfusion hok

/-- Witness for C4: an unreadable path gives IOError, and the text
"not json", rejected by the parser, gives ParseError. -/
theorem C4_witness :
    extract none (fun _ => none) = Except.error ExtractError.ioError ∧
    extract (some "not json") (fun _ => none)
      = Except.error ExtractError.parseError :=
  ⟨(C4_errors none (fun _ => none)).1 rfl,
   (C4_errors (some "not json") (fun _ => none)).2.1 "not json" rfl rfl⟩

/-- C5: extraction is deterministic — repeated calls on unchanged input
yield identical fragment sequences — and the result is the concatenation,
in cell order, of per-cell fragment lists, each of which is the
concatenation, in output order, of per-output fragment lists: fragment
order is a strict function of (cell order, output order within cell), and
reordering outputs within the source reorders fragments identically. -/
theorem C5_deterministic_order :
    (∀ readResult parse, extract readResult parse = extract readResult parse) ∧
    (∀ nb : Notebook, process_notebook_content nb
      = nb.cells.flatMap cellFragments) ∧
    (∀ c : Cell, c.cell_type = "code" →
      cellFragments c = (cellOutputs c).flatMap processOutput) := by
  refine ⟨fun _ _ => rfl, fun _ => rfl, ?_⟩
  intro c hc
  by_cases h : cellOutputs c = []
  · simp [cellFragments, h]
  · simp [cellFragments, hc, h]

/-- Witness for C5 at a concrete code cell: its fragments are exactly the
concatenation of its outputs' fragments, in order. -/
theorem C5_witness :
    cellFragments ⟨"code", some [⟨"execute_result", some [("text/plain", "7")]⟩]⟩
      = (cellOutputs
          ⟨"code", some [⟨"execute_result", some [("text/plain", "7")]⟩]⟩).flatMap
          processOutput :=
  C5_deterministic_order.2.2 _ rfl

/-- C6: an Output whose output_type is neither display_data nor
execute_result yields zero Fragments, regardless of its data content. -/
theorem C6_other_output_types (o : Output)
    (h1 : o.output_type ≠ "display_data")
    (h2 : o.output_type ≠ "execute_result") :
    processOutput o = [] := by
  simp [processOutput, h1, h2]

/-- Witness for C6: a stream Output carrying rich data yields nothing. -/
theorem C6_witness :
    processOutput ⟨"stream", some [("text/html", "<b>x</b>"), ("text/plain", "y")]⟩
      = [] :=
  C6_other_output_types _ (by decide) (by decide)

/-- C7: a cell whose cell_type is not code contributes zero Fragments,
regardless of any outputs field it may carry. -/
theorem C7_non_code_cells (c : Cell) (h : c.cell_type ≠ "code") :
    cellFragments c = [] := by
  simp [cellFragments, h]

/-- Witness for C7: a markdown cell carrying an outputs field with an
otherwise-emitting Output contributes nothing. -/
theorem C7_witness :
    cellFragments
      ⟨"markdown", some [⟨"execute_result", some [("text/plain", "x")]⟩]⟩
      = [] :=
  C7_non_code_cells _ (by decide)

/-- C8: within a well-formed (successfully parsed) document, missing
optional fields never cause an error — extraction always succeeds — and each
missing-field case silently contributes nothing: a code cell with an empty
or absent output sequence yields no placeholder Fragment, an Output lacking
a data mapping yields nothing, and an Output lacking the specific expected
MIME key yields nothing. -/
theorem C8_missing_fields_silent :
    (∀ readResult parse text nb, readResult = some text →
      parse text = some nb →
      extract readResult parse = Except.ok (process_notebook_content nb)) ∧
    (∀ c : Cell, cellOutputs c = [] → cellFragments c = []) ∧
    (∀ o : Output, o.data = none → processOutput o = []) ∧
    (∀ o d, o.output_type = "display_data" → o.data = some d →
      d.lookup "text/html" = none → d.lookup "image/png" = none →
      processOutput o = []) ∧
    (∀ o d, o.output_type = "execute_result" → o.data = some d →
      d.lookup "text/plain" = none → processOutput o = []) := by
  refine ⟨?_, ?_, ?_, ?_, ?_⟩
  · intro readResult parse text nb hr hp
    simp [extract, hr, hp]
  · intro c h
    simp [cellFragments, h]
  · intro o hd
    simp [processOutput, hasMime, hd]
  · intro o d hty hd hh hp
    simp [processOutput, hasMime, hty, hd, hh, hp]
  · intro o d hty hd ht
    simp [processOutput, hasMime, hty, hd, ht]

/-- Witness for C8 at concrete inputs: a parsed empty document succeeds with
no fragments, a code cell with an absent outputs field yields nothing, an
Output with no data mapping yields nothing, and Outputs lacking the expected
MIME key yield nothing. -/
theorem C8_witness :
    extract (some "nb") (fun _ => some ⟨[]⟩) = Except.ok [] ∧
    cellFragments ⟨"code", none⟩ = [] ∧
    processOutput ⟨"display_data", none⟩ = [] ∧
    processOutput ⟨"display_data", some [("text/plain", "x")]⟩ = [] ∧
    processOutput ⟨"execute_result", some [("text/html", "y")]⟩ = [] := by
  refine ⟨?_, ?_, ?_, ?_, ?_⟩
  · exact C8_missing_fields_silent.1 (some "nb") (fun _ => some ⟨[]⟩)
      "nb" ⟨[]⟩ rfl rfl
  · exact C8_missing_fields_silent.2.1 ⟨"code", none⟩ rfl
  · exact C8_missing_fields_silent.2.2.1 ⟨"display_data", none⟩ rfl
  · exact C8_missing_fields_silent.2.2.2.1 ⟨"display_data",
      some [("text/plain", "x")]⟩ [("text/plain", "x")] rfl rfl rfl rfl
  · exact C8_missing_fields_silent.2.2.2.2 ⟨"execute_result",
      some [("text/html", "y")]⟩ [("text/html", "y")] rfl rfl rfl

/-- C9: extraction is a per-cell list homomorphism — the fragments of a
document whose cell sequence is a concatenation c1 ++ c2 are exactly the
fragments of c1 followed by the fragments of c2; no cell's contribution
depends on any other cell. -/
theorem C9_cell_concat_homomorphism (c1 c2 : List Cell) :
    process_notebook_content ⟨c1 ++ c2⟩ =
      process_notebook_content ⟨c1⟩ ++ process_notebook_content ⟨c2⟩ := by
  simp [process_notebook_content]

/-- C10: emission is decided by presence of the MIME key in the data
mapping, not by the payload's truthiness: an execute_result Output mapping
text/plain to the empty string yields exactly the Fragment "<pre></pre>",
and a display_data Output mapping text/html to the empty string yields
exactly one empty-string Fragment. -/
theorem C10_presence_not_truthiness :
    processOutput ⟨"execute_result", some [("text/plain", "")]⟩
      = ["<pre></pre>"] ∧
    processOutput ⟨"display_data", some [("text/html", "")]⟩ = [""] :=
  ⟨rfl, rfl⟩
